import Mathlib

/-!
Verification of the Figma-Custom-MCP selection/asset pipeline.

Shallow embedding of:
- `packages/figma-plugin/code.js` — value normalizers (`safe`, `safeNum`,
  `safeStr`, `safeBool`, `safeArr`), image-format sniffing
  (`detectImageFormat`), base64 encoding (`uint8ToBase64`), design-tree
  serialization (`extractDesignNode` and its helper extractors), asset
  collection (`collectImageAssets`, `subtreeHasImage`) and the composite
  export scale computation from `exportImageAssets`;
- `packages/mcp-server/src/store/selectionStore.ts` — the selection store
  (`set`, `setImages`) with its disk-file collaborator modelled as the list
  of written file paths (`writeAssets` / `clearAssets` of `imageStorage.ts`);
- `packages/mcp-server/src/bridge/server.ts` — the `POST /selection`
  validation boundary.

JavaScript values are modelled by the inductive type `JSVal`.  Numbers are
modelled as rationals (`ℚ`); the Figma `figma.mixed` sentinel is a Symbol,
modelled by the `JSVal.sym` constructor.  JavaScript objects are association
lists; absent properties read as `undefined` (`JSVal.undef`).  All embedded
functions are total, mirroring the fact that the plugin code never throws on
the modelled paths (per-child `try/catch` blocks guard total code here).
-/

/-- Model of a JavaScript runtime value as seen by the plugin code.
`sym i` models Symbols; the ambient `figma.mixed` sentinel is a Symbol. -/
inductive JSVal : Type where
  | undef : JSVal
  | null : JSVal
  | bool : Bool → JSVal
  | num : ℚ → JSVal
  | str : String → JSVal
  | sym : Nat → JSVal
  | arr : List JSVal → JSVal
  | obj : List (String × JSVal) → JSVal

/-- JavaScript truthiness of a value (`!v` is `jsTruthy v = false`). -/
def jsTruthy : JSVal → Bool
  | .undef => false
  | .null => false
  | .bool b => b
  | .num q => q != 0
  | .str s => s != ""
  | .sym _ => true
  | .arr _ => true
  | .obj _ => true

/-- Whether a value is a Symbol (JS `typeof v === 'symbol'`). -/
def JSVal.isSym : JSVal → Bool
  | .sym _ => true
  | _ => false

/-- Whether a value is `undefined` (JS `v === undefined`). -/
def JSVal.isUndef : JSVal → Bool
  | .undef => true
  | _ => false

mutual
/-- JS strict equality `===` on the model.  The source only applies `===` to
primitives (string literals, `null`, node-id strings), where strict equality
is structural; on arrays and objects JS compares references, which this
structural model over-approximates but which the source never relies on. -/
def JSVal.beq : JSVal → JSVal → Bool
  | .undef, .undef => true
  | .null, .null => true
  | .bool a, .bool b => a == b
  | .num a, .num b => a == b
  | .str a, .str b => a == b
  | .sym a, .sym b => a == b
  | .arr a, .arr b => beqList a b
  | .obj a, .obj b => beqObjList a b
  | _, _ => false
def beqList : List JSVal → List JSVal → Bool
  | [], [] => true
  | a :: as2, b :: bs => JSVal.beq a b && beqList as2 bs
  | _, _ => false
def beqObjList : List (String × JSVal) → List (String × JSVal) → Bool
  | [], [] => true
  | (k1, v1) :: as2, (k2, v2) :: bs => k1 == k2 && JSVal.beq v1 v2 && beqObjList as2 bs
  | _, _ => false
end

/-- Property read on an association-list object: a missing key reads as
`undefined`, exactly like JS property access on a plain object. -/
def getProp (o : List (String × JSVal)) (k : String) : JSVal :=
  match o.lookup k with
  | none => .undef
  | some v => v

/-- Property read lifted to values: non-objects have no modelled properties. -/
def JSVal.field (v : JSVal) (k : String) : JSVal :=
  getProp (match v with | .obj fs => fs | _ => []) k

/-- `code.js` line 23: `safe(val, fallback)`.  Null, undefined and any Symbol
(in particular `figma.mixed`) resolve to the fallback, or to `null` when the
fallback argument was omitted (the JS call `safe(val)` passes `undefined`). -/
def safe (val fallback : JSVal) : JSVal :=
  match val with
  | .null => if fallback.isUndef then .null else fallback
  | .undef => if fallback.isUndef then .null else fallback
  | .sym _ => if fallback.isUndef then .null else fallback
  | v => v

/-- `code.js` line 29: `safeNum(val, fallback)` — a number passes through,
anything else resolves to the fallback (or `0` when omitted). -/
def safeNum (val fallback : JSVal) : JSVal :=
  match safe val .undef with
  | .num q => .num q
  | _ => if fallback.isUndef then .num 0 else fallback

/-- `code.js` line 34: `safeStr(val, fallback)`. -/
def safeStr (val fallback : JSVal) : JSVal :=
  match safe val .undef with
  | .str s => .str s
  | _ => if fallback.isUndef then .str "" else fallback

/-- `code.js` line 39: `safeBool(val, fallback)`. -/
def safeBool (val fallback : JSVal) : JSVal :=
  match safe val .undef with
  | .bool b => .bool b
  | _ => if fallback.isUndef then .bool false else fallback

/-- `code.js` line 44: `safeArr(val)` — an array passes through, anything
else resolves to `[]`. -/
def safeArr (val : JSVal) : JSVal :=
  match safe val .undef with
  | .arr xs => .arr xs
  | _ => .arr []

/-- `safeNum` specialised to the numeric fallbacks used at every call site in
`code.js`; returns the underlying rational.  Agrees with `safeNum`
(`safeNum_num_fallback`). -/
def safeNumQ (val : JSVal) (fb : ℚ) : ℚ :=
  match safe val .undef with
  | .num q => q
  | _ => fb

/-- `safeStr` specialised to the string fallbacks used at every call site. -/
def safeStrS (val : JSVal) (fb : String) : String :=
  match safe val .undef with
  | .str s => s
  | _ => fb

/-- `safeBool` specialised to the boolean fallbacks used at every call site. -/
def safeBoolB (val : JSVal) (fb : Bool) : Bool :=
  match safe val .undef with
  | .bool b => b
  | _ => fb

/-- `safeArr` returning the underlying list. -/
def safeArrL (val : JSVal) : List JSVal :=
  match safe val .undef with
  | .arr xs => xs
  | _ => []

/-- `code.js` line 49: the colour record produced by `toColor(c)`. -/
structure Color where
  r : ℚ
  g : ℚ
  b : ℚ
  a : ℚ
deriving DecidableEq

def toColor (c : JSVal) : Color :=
  if jsTruthy c = false || c.isSym then { r := 0, g := 0, b := 0, a := 1 }
  else
    { r := safeNumQ (c.field "r") 0, g := safeNumQ (c.field "g") 0,
      b := safeNumQ (c.field "b") 0, a := safeNumQ (c.field "a") 1 }

/-- `code.js` line 56: the base64 alphabet. -/
def B64CHARS : String :=
  "ABCDEFGHIJKLMNOPQRSTUVWXYZabcdefghijklmnopqrstuvwxyz0123456789+/"

/-- Indexing into the alphabet; every index produced below is `< 64`. -/
def b64Char (n : Nat) : Char := B64CHARS.data.getD n 'A'

/-- `code.js` line 55: `uint8ToBase64(u8)`.  The loop advances three bytes at
a time; for byte values (`< 256`) the JS bit operations coincide with the
divisions and remainders used here (`x >> 2 = x / 4`, `x & 3 = x % 4`, …). -/
def uint8ToBase64 : List Nat → String
  | [] => ""
  | [a] =>
      String.mk [b64Char (a / 4), b64Char (a % 4 * 16), '=', '=']
  | [a, b] =>
      String.mk [b64Char (a / 4), b64Char (a % 4 * 16 + b / 16),
                 b64Char (b % 16 * 4), '=']
  | a :: b :: c :: rest =>
      String.mk [b64Char (a / 4), b64Char (a % 4 * 16 + b / 16),
                 b64Char (b % 16 * 4 + c / 64), b64Char (c % 64)]
        ++ uint8ToBase64 rest

/-- `code.js` line 69: `detectImageFormat(bytes)` — format sniffing from magic
bytes.  The `!bytes` null guard of the source coincides with the length guard
for the empty list. -/
def detectImageFormat (bytes : List Nat) : String :=
  if bytes.length < 12 then "png"
  else if bytes.getD 0 0 = 0x89 ∧ bytes.getD 1 0 = 0x50 ∧
          bytes.getD 2 0 = 0x4E ∧ bytes.getD 3 0 = 0x47 then "png"
  else if bytes.getD 0 0 = 0xFF ∧ bytes.getD 1 0 = 0xD8 then "jpg"
  else if bytes.getD 0 0 = 0x47 ∧ bytes.getD 1 0 = 0x49 ∧
          bytes.getD 2 0 = 0x46 then "gif"
  else if bytes.getD 8 0 = 0x57 ∧ bytes.getD 9 0 = 0x45 ∧
          bytes.getD 10 0 = 0x42 ∧ bytes.getD 11 0 = 0x50 then "webp"
  else "png"

/-- JS `Math.round` on the rational model (round half up, as `Math.round`). -/
def jsRound (q : ℚ) : ℤ := ⌊q + 1 / 2⌋

/-! ### The source node graph and the design-tree serializer -/

/-- `code.js` line 4: `MAX_TREE_DEPTH` — design tree extraction depth. -/
def MAX_TREE_DEPTH : Nat := 15

/-- `code.js` line 5: `MAX_IMAGE_SCAN_DEPTH` — image asset scanning depth. -/
def MAX_IMAGE_SCAN_DEPTH : Nat := 30

/-- `code.js` line 6. -/
def MAX_IMAGE_ASSETS : Nat := 50

/-- `code.js` line 7. -/
def MAX_VECTOR_ASSETS : Nat := 30

/-- `code.js` line 8. -/
def MAX_COMPOSITE_ASSETS : Nat := 20

/-- `code.js` line 9: cap on composite export pixel dimension (1x). -/
def COMPOSITE_MAX_PX : ℚ := 512

mutual
/-- A node of the ambient Figma node graph: a bag of loosely-typed properties
(`id`, `name`, `type`, `fills`, `cornerRadius`, …, any of which may be absent
or the mixed Symbol) plus a `children` property that is either `undefined` or
an array of child nodes. -/
inductive SrcNode : Type where
  | mk : List (String × JSVal) → SrcChildren → SrcNode
/-- The `children` property of a source node (`undefined` or an array). -/
inductive SrcChildren : Type where
  | undef : SrcChildren
  | arr : SrcForest → SrcChildren
/-- A list of sibling source nodes. -/
inductive SrcForest : Type where
  | nil : SrcForest
  | cons : SrcNode → SrcForest → SrcForest
end

/-- An absent `children` property (the JS `undefined`), used by the concrete
example nodes below. -/
def noKids : SrcChildren := SrcChildren.undef

def SrcNode.props : SrcNode → List (String × JSVal)
  | .mk p _ => p

def SrcNode.childrenOf : SrcNode → SrcChildren
  | .mk _ c => c

/-- Property access `node.k` on a source node. -/
def SrcNode.get (n : SrcNode) (k : String) : JSVal := getProp n.props k

/-- Paint payload beyond the common `{type, visible, opacity}` base, per the
branches of `extractPaint` (`code.js` line 254). -/
inductive PaintExtra : Type where
  | base : PaintExtra
  | solid : Color → PaintExtra
  | gradient : List (Color × ℚ) → PaintExtra
  | image : String → String → PaintExtra
deriving DecidableEq

/-- A serialized paint (`extractPaint` result). -/
structure Paint where
  type : String
  visible : Bool
  opacity : ℚ
  extra : PaintExtra
deriving DecidableEq

/-- `code.js` line 254: `extractPaint(p)` — `null` for falsy/Symbol input. -/
def extractPaint (p : JSVal) : Option Paint :=
  if jsTruthy p = false || p.isSym then none
  else
    let base : Paint :=
      { type := safeStrS (p.field "type") "SOLID",
        visible := safeBoolB (p.field "visible") true,
        opacity := safeNumQ (p.field "opacity") 1,
        extra := .base }
    if JSVal.beq (p.field "type") (.str "SOLID") then
      some { base with extra := .solid (toColor (p.field "color")) }
    else if JSVal.beq (p.field "type") (.str "GRADIENT_LINEAR") ||
            JSVal.beq (p.field "type") (.str "GRADIENT_RADIAL") ||
            JSVal.beq (p.field "type") (.str "GRADIENT_ANGULAR") ||
            JSVal.beq (p.field "type") (.str "GRADIENT_DIAMOND") then
      some { base with extra := .gradient ((safeArrL (p.field "gradientStops")).map
        (fun s => (toColor (s.field "color"), safeNumQ (s.field "position") 0))) }
    else if JSVal.beq (p.field "type") (.str "IMAGE") then
      some { base with extra := .image (safeStrS (p.field "imageHash") "")
                                       (safeStrS (p.field "scaleMode") "FILL") }
    else some base

/-- Shadow payload of a `DROP_SHADOW`/`INNER_SHADOW` effect. -/
structure ShadowData where
  color : Color
  offsetX : ℚ
  offsetY : ℚ
  spread : ℚ
deriving DecidableEq

/-- A serialized effect (`extractEffect` result). -/
structure Effect where
  type : String
  visible : Bool
  radius : ℚ
  shadow : Option ShadowData
deriving DecidableEq

/-- `code.js` line 280: `extractEffect(e)`. -/
def extractEffect (e : JSVal) : Option Effect :=
  if jsTruthy e = false || e.isSym then none
  else
    let base : Effect :=
      { type := safeStrS (e.field "type") "",
        visible := safeBoolB (e.field "visible") true,
        radius := safeNumQ (e.field "radius") 0,
        shadow := none }
    if JSVal.beq (e.field "type") (.str "DROP_SHADOW") ||
       JSVal.beq (e.field "type") (.str "INNER_SHADOW") then
      let offset : ℚ × ℚ :=
        if jsTruthy (e.field "offset") then
          (safeNumQ ((e.field "offset").field "x") 0,
           safeNumQ ((e.field "offset").field "y") 0)
        else (0, 0)
      some { base with shadow := some { color := toColor (e.field "color"),
                                        offsetX := offset.1, offsetY := offset.2,
                                        spread := safeNumQ (e.field "spread") 0 } }
    else some base

/-- Auto-layout descriptor (`extractAutoLayout` result).  The `mode` field
carries the raw truthy value, as in the source (`mode: mode`). -/
structure AutoLayout where
  mode : JSVal
  spacing : ℚ
  paddingTop : ℚ
  paddingRight : ℚ
  paddingBottom : ℚ
  paddingLeft : ℚ
  primaryAxisAlignItems : String
  counterAxisAlignItems : String
  layoutWrap : String

/-- `code.js` line 290: `extractAutoLayout(node)` — `null` (modelled `none`)
when `layoutMode` is falsy or the literal string `'NONE'`. -/
def extractAutoLayout (n : SrcNode) : Option AutoLayout :=
  let mode := safe (n.get "layoutMode") .undef
  if jsTruthy mode = false || JSVal.beq mode (.str "NONE") then none
  else some
    { mode := mode,
      spacing := safeNumQ (n.get "itemSpacing") 0,
      paddingTop := safeNumQ (n.get "paddingTop") 0,
      paddingRight := safeNumQ (n.get "paddingRight") 0,
      paddingBottom := safeNumQ (n.get "paddingBottom") 0,
      paddingLeft := safeNumQ (n.get "paddingLeft") 0,
      primaryAxisAlignItems := safeStrS (n.get "primaryAxisAlignItems") "MIN",
      counterAxisAlignItems := safeStrS (n.get "counterAxisAlignItems") "MIN",
      layoutWrap := safeStrS (n.get "layoutWrap") "NO_WRAP" }

/-- Text style descriptor (`extractTextStyle` result).  `lineHeight` is either
the literal string `'AUTO'` or a number, kept as a raw value as in the JS. -/
structure TextStyle where
  fontFamily : String
  fontStyle : String
  fontSize : ℚ
  fontWeight : Nat
  letterSpacing : ℚ
  lineHeight : JSVal
  textAlignHorizontal : String
  textAlignVertical : String
  textDecoration : String
  textCase : String

/-- The digit substring of a style name (`style.replace(/[^0-9]/g, '')`). -/
def digitsOnly (s : String) : String := String.mk (s.data.filter Char.isDigit)

/-- `code.js` line 306: `extractTextStyle(node)`.  Font weight is
`parseInt(digits || '400', 10)`; a digit-only string always parses. -/
def extractTextStyle (n : SrcNode) : Option TextStyle :=
  let fs := safe (n.get "fontName") .undef
  if jsTruthy fs = false || fs.isSym then none
  else
    let lh := safe (n.get "lineHeight") .undef
    let ls := safe (n.get "letterSpacing") .undef
    some
      { fontFamily := safeStrS (fs.field "family") "",
        fontStyle := safeStrS (fs.field "style") "",
        fontSize := safeNumQ (n.get "fontSize") 0,
        fontWeight :=
          (if digitsOnly (safeStrS (fs.field "style") "") = "" then "400"
           else digitsOnly (safeStrS (fs.field "style") "")).toNat?.getD 0,
        letterSpacing :=
          if jsTruthy ls && JSVal.beq (ls.field "unit") (.str "PIXELS") then
            safeNumQ (ls.field "value") 0
          else 0,
        lineHeight :=
          if jsTruthy lh && JSVal.beq (lh.field "unit") (.str "AUTO") then .str "AUTO"
          else if jsTruthy lh then .num (safeNumQ (lh.field "value") 0)
          else .num 0,
        textAlignHorizontal := safeStrS (n.get "textAlignHorizontal") "LEFT",
        textAlignVertical := safeStrS (n.get "textAlignVertical") "TOP",
        textDecoration := safeStrS (n.get "textDecoration") "NONE",
        textCase := safeStrS (n.get "textCase") "ORIGINAL" }

/-- All fields of a serialized design node except `children`
(`extractDesignNode`, `code.js` line 325).  Conditionally-assigned JS fields
are `Option`s (`none` means the field was never set on the object). -/
structure DesignNodeData where
  id : String
  name : String
  type : String
  visible : Bool
  opacity : ℚ
  blendMode : String
  locked : Bool
  x : ℚ
  y : ℚ
  width : ℚ
  height : ℚ
  constraintHorizontal : Option String
  constraintVertical : Option String
  fills : List Paint
  strokes : List Paint
  strokeWeight : ℚ
  strokeAlign : String
  dashPattern : List ℚ
  effects : List Effect
  isMask : Bool
  cornerRadius : Option ℚ
  topLeftRadius : Option ℚ
  topRightRadius : Option ℚ
  bottomRightRadius : Option ℚ
  bottomLeftRadius : Option ℚ
  autoLayout : Option AutoLayout
  characters : Option String
  textStyle : Option TextStyle
  componentId : Option String

mutual
/-- A serialized design node: the flat data plus an optional `children`
field (absent entirely when not assigned, per the JS object semantics). -/
inductive DesignNode : Type where
  | mk : DesignNodeData → DChildren → DesignNode
/-- The optional `children` field of a serialized node. -/
inductive DChildren : Type where
  | absent : DChildren
  | present : DForest → DChildren
/-- A list of serialized sibling nodes. -/
inductive DForest : Type where
  | nil : DForest
  | cons : DesignNode → DForest → DForest
end

def DesignNode.data : DesignNode → DesignNodeData
  | .mk d _ => d

def DesignNode.childrenOf : DesignNode → DChildren
  | .mk _ c => c

mutual
/-- `code.js` line 325: `extractDesignNode(node, depth)`.

Children are recursed only while `depth < MAX_TREE_DEPTH` and the node has a
`children` array (line 390); beyond the bound the `children` field is never
assigned.  The corner-radius block (line 354) probes `safe(node.cornerRadius)`:
a number sets the uniform field, any other non-null probe result sets the four
per-corner fields.  The per-child `try` of the source wraps total code in this
model, so every child contributes. -/
def extractDesignNode : SrcNode → Nat → DesignNode
  | .mk props children, depth =>
    let node : SrcNode := .mk props children
    let fills := ((safeArrL (safe (getProp props "fills") .undef)).map extractPaint).reduceOption
    let strokes := ((safeArrL (safe (getProp props "strokes") .undef)).map extractPaint).reduceOption
    let effects := ((safeArrL (safe (getProp props "effects") .undef)).map extractEffect).reduceOption
    let constraints := safe (getProp props "constraints") .undef
    let cr := safe (getProp props "cornerRadius") .undef
    let data : DesignNodeData :=
      { id := safeStrS (getProp props "id") "",
        name := safeStrS (getProp props "name") "",
        type := safeStrS (getProp props "type") "",
        visible := safeBoolB (getProp props "visible") true,
        opacity := safeNumQ (getProp props "opacity") 1,
        blendMode := safeStrS (getProp props "blendMode") "NORMAL",
        locked := safeBoolB (getProp props "locked") false,
        x := safeNumQ (getProp props "x") 0,
        y := safeNumQ (getProp props "y") 0,
        width := safeNumQ (getProp props "width") 0,
        height := safeNumQ (getProp props "height") 0,
        constraintHorizontal :=
          if jsTruthy constraints then some (safeStrS (constraints.field "horizontal") "")
          else none,
        constraintVertical :=
          if jsTruthy constraints then some (safeStrS (constraints.field "vertical") "")
          else none,
        fills := fills,
        strokes := strokes,
        strokeWeight := safeNumQ (getProp props "strokeWeight") 0,
        strokeAlign := safeStrS (getProp props "strokeAlign") "INSIDE",
        dashPattern := (safeArrL (safe (getProp props "dashPattern") .undef)).filterMap
          (fun v => match v with | .num q => some q | _ => none),
        effects := effects,
        isMask := safeBoolB (getProp props "isMask") false,
        cornerRadius :=
          if JSVal.beq cr .null then none
          else match cr with | .num q => some q | _ => none,
        topLeftRadius :=
          if JSVal.beq cr .null then none
          else match cr with
               | .num _ => none
               | _ => some (safeNumQ (getProp props "topLeftRadius") 0),
        topRightRadius :=
          if JSVal.beq cr .null then none
          else match cr with
               | .num _ => none
               | _ => some (safeNumQ (getProp props "topRightRadius") 0),
        bottomRightRadius :=
          if JSVal.beq cr .null then none
          else match cr with
               | .num _ => none
               | _ => some (safeNumQ (getProp props "bottomRightRadius") 0),
        bottomLeftRadius :=
          if JSVal.beq cr .null then none
          else match cr with
               | .num _ => none
               | _ => some (safeNumQ (getProp props "bottomLeftRadius") 0),
        autoLayout :=
          if JSVal.beq (getProp props "type") (.str "FRAME") ||
             JSVal.beq (getProp props "type") (.str "COMPONENT") ||
             JSVal.beq (getProp props "type") (.str "INSTANCE") then
            extractAutoLayout node
          else none,
        characters :=
          if JSVal.beq (getProp props "type") (.str "TEXT") then
            some (match safe (getProp props "characters") .undef with
                  | .str s => s
                  | _ => "")
          else none,
        textStyle :=
          if JSVal.beq (getProp props "type") (.str "TEXT") then extractTextStyle node
          else none,
        componentId :=
          if JSVal.beq (getProp props "type") (.str "INSTANCE") then
            (if jsTruthy (safe (getProp props "mainComponent") .undef) then
               some (safeStrS ((safe (getProp props "mainComponent") .undef).field "id") "")
             else none)
          else none }
    let kids : DChildren :=
      if depth < MAX_TREE_DEPTH then
        match children with
        | .arr f => .present (extractForest f (depth + 1))
        | .undef => .absent
      else .absent
    .mk data kids
/-- The loop over `node.children` in `extractDesignNode` (`code.js` 392). -/
def extractForest : SrcForest → Nat → DForest
  | .nil, _ => .nil
  | .cons c rest, depth => .cons (extractDesignNode c depth) (extractForest rest depth)
end

/-! ### Asset collection (`collectImageAssets`, `code.js` line 79) -/

/-- Value stored in `collected.imageHashes[hash]` (`code.js` line 92). -/
structure HashInfo where
  nodeId : String
  nodeName : String
  width : ℚ
  height : ℚ

/-- Entry of `collected.vectorNodes` / `collected.compositeNodes`: the live
node reference plus its id and name (`code.js` lines 111, 129). -/
structure NodeEntry where
  node : SrcNode
  nodeId : String
  nodeName : String

/-- The shared accumulator of the collection walk (`code.js` line 454):
`{ imageHashes: {}, vectorNodes: [], compositeNodes: [], compositeIds: {},
totalCount: 0 }`.  The two JS objects used as keyed maps are association
lists in insertion order. -/
structure Collected where
  imageHashes : List (String × HashInfo)
  vectorNodes : List NodeEntry
  compositeNodes : List NodeEntry
  compositeIds : List String
  totalCount : Nat

/-- The empty accumulator built at each selection send. -/
def emptyCollected : Collected :=
  { imageHashes := [], vectorNodes := [], compositeNodes := [],
    compositeIds := [], totalCount := 0 }

/-- One iteration of the fills loop of `collectImageAssets`
(`code.js` lines 87-101): an IMAGE paint with a truthy `imageHash` whose
(string-normalized, non-empty) hash is not yet keyed adds one entry. -/
def imageFillStep (n : SrcNode) (acc : Collected) (f : JSVal) : Collected :=
  if jsTruthy f && JSVal.beq (f.field "type") (.str "IMAGE") &&
     jsTruthy (f.field "imageHash") then
    let hash := safeStrS (f.field "imageHash") ""
    if hash != "" && (acc.imageHashes.lookup hash).isNone then
      { acc with
        imageHashes := acc.imageHashes ++
          [(hash, { nodeId := safeStrS (n.get "id") "",
                    nodeName := safeStrS (n.get "name") "",
                    width := safeNumQ (n.get "width") 0,
                    height := safeNumQ (n.get "height") 0 })],
        totalCount := acc.totalCount + 1 }
    else acc
  else acc

/-- The vector-node check of `collectImageAssets` (`code.js` lines 104-117). -/
def vectorStep (n : SrcNode) (acc : Collected) : Collected :=
  let nt := safeStrS (n.get "type") ""
  let isVector := nt = "VECTOR" ∨ nt = "STAR" ∨ nt = "LINE" ∨
                  nt = "POLYGON" ∨ nt = "BOOLEAN_OPERATION"
  let nodeVisible := safeBoolB (n.get "visible") true
  let nodeW := safeNumQ (n.get "width") 0
  let nodeH := safeNumQ (n.get "height") 0
  if isVector ∧ nodeVisible = true ∧ (nodeW > 0 ∨ nodeH > 0) ∧
     acc.vectorNodes.length < MAX_VECTOR_ASSETS then
    { acc with
      vectorNodes := acc.vectorNodes ++
        [{ node := n, nodeId := safeStrS (n.get "id") "",
           nodeName := safeStrS (n.get "name") "" }],
      totalCount := acc.totalCount + 1 }
  else acc

mutual
/-- `code.js` line 148: `subtreeHasImage(node, d)` — does any node within
four levels have an IMAGE fill with a truthy `imageHash`? -/
def subtreeHasImage : SrcNode → Nat → Bool
  | .mk props children, d =>
    if d > 4 then false
    else
      let fills := safeArrL (safe (getProp props "fills") .undef)
      if fills.any (fun f => jsTruthy f && JSVal.beq (f.field "type") (.str "IMAGE") &&
                             jsTruthy (f.field "imageHash")) then true
      else
        match children with
        | .arr f => forestHasImage f (d + 1)
        | .undef => false
/-- The children loop of `subtreeHasImage` (`code.js` line 155). -/
def forestHasImage : SrcForest → Nat → Bool
  | .nil, _ => false
  | .cons c rest, d => subtreeHasImage c d || forestHasImage rest d
end

/-- The composite-container check of `collectImageAssets`
(`code.js` lines 119-137): an INSTANCE/COMPONENT/COMPONENT_SET, or a FRAME
with `clipsContent`, not at the walk root, below the composite cap, whose
subtree contains an IMAGE fill and whose id is not yet recorded. -/
def compositeStep (n : SrcNode) (depth : Nat) (acc : Collected) : Collected :=
  let nt := safeStrS (n.get "type") ""
  let isContainer := nt = "INSTANCE" ∨ nt = "COMPONENT" ∨ nt = "COMPONENT_SET"
  let isClippedFrame := nt = "FRAME" ∧ safeBoolB (n.get "clipsContent") false = true
  if (isContainer ∨ isClippedFrame) ∧ depth > 0 ∧
     acc.compositeNodes.length < MAX_COMPOSITE_ASSETS then
    let hasImageDescendant := subtreeHasImage n 0
    if hasImageDescendant = true ∧
       acc.compositeIds.contains (safeStrS (n.get "id") "") = false then
      { acc with
        compositeNodes := acc.compositeNodes ++
          [{ node := n, nodeId := safeStrS (n.get "id") "",
             nodeName := safeStrS (n.get "name") "" }],
        compositeIds := acc.compositeIds ++ [safeStrS (n.get "id") ""],
        totalCount := acc.totalCount + 1 }
    else acc
  else acc

mutual
/-- `code.js` line 79: `collectImageAssets(node, depth, collected)`, as a
function on the accumulator.  Entry guards in source order: depth bound,
global cap over all three categories, invisibility pruning.  Then the fills
loop, the vector check, the composite check, and recursion into children
(whose per-child `try` wraps total code in this model). -/
def collectImageAssets : SrcNode → Nat → Collected → Collected
  | .mk props children, depth, acc =>
    let n : SrcNode := .mk props children
    if depth > MAX_IMAGE_SCAN_DEPTH then acc
    else if acc.totalCount ≥ MAX_IMAGE_ASSETS + MAX_VECTOR_ASSETS + MAX_COMPOSITE_ASSETS then acc
    else if safeBoolB (n.get "visible") true = false then acc
    else
      let acc1 := (safeArrL (safe (n.get "fills") .undef)).foldl (imageFillStep n) acc
      let acc2 := vectorStep n acc1
      let acc3 := compositeStep n depth acc2
      match children with
      | .arr f => collectForest f (depth + 1) acc3
      | .undef => acc3
/-- The children loop of `collectImageAssets` (`code.js` line 141). -/
def collectForest : SrcForest → Nat → Collected → Collected
  | .nil, _, acc => acc
  | .cons c rest, depth, acc => collectForest rest depth (collectImageAssets c depth acc)
end

/-! ### Asset export records (`exportImageAssets`, `code.js` line 163) -/

/-- An exported image asset, as posted to the server (`code.js` line 177 and
the `ImageAsset` interface of `types/selection.ts`); `filePath` is attached
by the server once persisted. -/
structure ImageAsset where
  id : String
  format : String
  data : String
  nodeId : String
  nodeName : String
  width : ℚ
  height : ℚ
  assetType : String
  filePath : Option String

/-- `code.js` lines 227-230: the export scale of a composite node — scale
down to fit within `COMPOSITE_MAX_PX`, keeping 1x when already within it. -/
def compositeExportScale (node : SrcNode) : ℚ :=
  let w := safeNumQ (node.get "width") 1
  let h := safeNumQ (node.get "height") 1
  let maxDim := max w h
  if maxDim > COMPOSITE_MAX_PX then COMPOSITE_MAX_PX / maxDim else 1

/-- `code.js` lines 232-242: the asset record built from a composite export,
given the PNG bytes produced by `exportAsync` at `compositeExportScale`. -/
def compositeAssetRecord (comp : NodeEntry) (bytes : List Nat) : ImageAsset :=
  let w := safeNumQ (comp.node.get "width") 1
  let h := safeNumQ (comp.node.get "height") 1
  let scale := compositeExportScale comp.node
  { id := "composite_" ++ comp.nodeId,
    format := detectImageFormat bytes,
    data := uint8ToBase64 bytes,
    nodeId := comp.nodeId,
    nodeName := comp.nodeName,
    width := (jsRound (w * scale) : ℚ),
    height := (jsRound (h * scale) : ℚ),
    assetType := "image-fill",
    filePath := none }

/-! ### Server-side store and bridge (`selectionStore.ts`, `imageStorage.ts`,
`bridge/server.ts`) -/

/-- `imageStorage.ts` line 30: `sanitize(id)` — any character outside
`[a-zA-Z0-9_-]` becomes `'_'`. -/
def sanitize (id : String) : String :=
  String.mk (id.data.map (fun c => if c.isAlphanum || c = '_' || c = '-' then c else '_'))

/-- The resolved `figma-assets/` directory.  `imageStorage.ts` line 19 resolves
it from `__dirname`; path resolution is an opaque collaborator (spec §6), so
the model uses the directory name itself. -/
def ASSETS_DIR : String := "figma-assets"

/-- JS object assignment `m[k] = v` on an association-list object: overwrite
in place when the key exists (keeping insertion order), append otherwise. -/
def assocSet {α : Type} (m : List (String × α)) (k : String) (v : α) : List (String × α) :=
  if (m.lookup k).isSome then m.map (fun p => if p.1 = k then (k, v) else p)
  else m ++ [(k, v)]

/-- `imageStorage.ts` line 53: `writeAssets(assets)` — one file per asset at
`ASSETS_DIR/<sanitize(id)>.<format>`; returns the asset-id → path map.  The
file contents (base64-decoded bytes) are the collaborator's concern; the
model tracks the paths written. -/
def writeAssets (assets : List ImageAsset) : List (String × String) :=
  assets.foldl
    (fun fp a => assocSet fp a.id (ASSETS_DIR ++ "/" ++ sanitize a.id ++ "." ++ a.format))
    []

/-- The stored selection (`SelectionState` of `types/selection.ts`, as built
by `POST /selection`).  Identity fields hold the raw JSON values the handler
destructured; `images` is the optional asset map keyed by asset id. -/
structure SelectionState where
  fileId : JSVal
  nodeId : JSVal
  pageId : JSVal
  userId : JSVal
  metadata : JSVal
  designTree : JSVal
  images : Option (List (String × ImageAsset))
  timestamp : Nat

/-- The observable state of the `SelectionStore` singleton together with its
disk collaborator: the current slot and the asset file paths on disk. -/
structure StoreState where
  current : Option SelectionState
  disk : List String

/-- `selectionStore.ts` line 17: `set(selection)` — `clearAssets()` deletes
every asset file, then the slot is overwritten. -/
def SelectionStore.set (_st : StoreState) (selection : SelectionState) : StoreState :=
  { current := some selection, disk := [] }

/-- `selectionStore.ts` line 29: `clear()`. -/
def SelectionStore.clear (_st : StoreState) : StoreState :=
  { current := none, disk := [] }

/-- `selectionStore.ts` line 35: `setImages(nodeId, assets)` — rejected
(`false`, nothing touched) unless the current selection exists and its
`nodeId` strictly equals the batch's; otherwise the assets are written to
disk, enriched with their file paths and merged into the asset map keyed by
asset id (last write wins per id). -/
def SelectionStore.setImages (st : StoreState) (nodeId : JSVal) (assets : List ImageAsset) :
    Bool × StoreState :=
  match st.current with
  | none => (false, st)
  | some s =>
    if JSVal.beq s.nodeId nodeId = false then (false, st)
    else
      let filePaths := writeAssets assets
      let map := assets.foldl
        (fun m a => assocSet m a.id { a with filePath := filePaths.lookup a.id })
        (s.images.getD [])
      (true,
       { current := some { s with images := some map },
         disk := st.disk ++ filePaths.map Prod.snd })

/-- The response of a bridge route, as far as the modelled handlers go. -/
inductive BridgeResponse : Type where
  | badRequest : String → List String → BridgeResponse
  | conflict : String → BridgeResponse
  | okJson : BridgeResponse

/-- HTTP status of a modelled response (`res.status(...)`). -/
def BridgeResponse.status : BridgeResponse → Nat
  | .badRequest _ _ => 400
  | .conflict _ => 409
  | .okJson => 200

/-- The validation error body of `POST /selection`
(`bridge/server.ts` line 48). -/
def requiredMsg : String := "Invalid payload. Required fields: fileId, nodeId, metadata"

/-- `bridge/server.ts` line 41 (and the identical handler of the
`imageStorage.ts` server variant, line 151): `POST /selection`.  The body is
the parsed JSON object; destructured fields read as `undefined` when missing.
A falsy `fileId`, `nodeId` or `metadata` is rejected with 400 before the
store is touched; otherwise the slot is wholly replaced (`images: {}`,
`timestamp: Date.now()` passed in as `now`). -/
def postSelection (body : List (String × JSVal)) (st : StoreState) (now : Nat) :
    BridgeResponse × StoreState :=
  let fileId := getProp body "fileId"
  let nodeId := getProp body "nodeId"
  let pageId := getProp body "pageId"
  let userId := getProp body "userId"
  let metadata := getProp body "metadata"
  let designTree := getProp body "designTree"
  if jsTruthy fileId = false ∨ jsTruthy nodeId = false ∨ jsTruthy metadata = false then
    (.badRequest requiredMsg (body.map Prod.fst), st)
  else
    (.okJson,
     SelectionStore.set st
       { fileId := fileId,
         nodeId := nodeId,
         pageId := if jsTruthy pageId then pageId else .str "unknown",
         userId := if jsTruthy userId then userId else .str "anonymous",
         metadata := metadata,
         designTree := designTree,
         images := some [],
         timestamp := now })

/-- `imageStorage.ts` server variant line 178: `POST /selection/images` — a
falsy `nodeId` or non-array `assets` is a 400; a stale batch is a 409 via
`setImages`; otherwise the enriched assets are stored.  (`assets` arrives
already decoded into records here; a non-array JSON value is modelled by
`none`.) -/
def postSelectionImages (nodeId : JSVal) (assets : Option (List ImageAsset))
    (st : StoreState) : BridgeResponse × StoreState :=
  match assets with
  | none => (.badRequest "Invalid payload. Required: nodeId, assets[]" [], st)
  | some batch =>
    if jsTruthy nodeId = false then
      (.badRequest "Invalid payload. Required: nodeId, assets[]" [], st)
    else
      let r := SelectionStore.setImages st nodeId batch
      if r.1 = false then (.conflict "Selection changed; images discarded", r.2)
      else (.okJson, r.2)

/-- Whether `small` occurs as a contiguous run at the head of `big`. -/
def headMatches : List Char → List Char → Bool
  | [], _ => true
  | _ :: _, [] => false
  | a :: as2, b :: bs => a = b && headMatches as2 bs

/-- Whether `small` occurs as a contiguous run anywhere in `big` (used to
state that an error message names a field). -/
def hasSubChars (big small : List Char) : Bool :=
  match big with
  | [] => small.isEmpty
  | _ :: rest => headMatches small big || hasSubChars rest small

/-! ### Auxiliary definitions for the statements -/

mutual
/-- Height of a serialized node: number of `children` levels below it
(`0` when the `children` field is absent). -/
def dHeight : DesignNode → Nat
  | .mk _ c => dChildrenHeight c
def dChildrenHeight : DChildren → Nat
  | .absent => 0
  | .present f => 1 + dForestHeight f
def dForestHeight : DForest → Nat
  | .nil => 0
  | .cons n rest => max (dHeight n) (dForestHeight rest)
end

/-- A node whose `cornerRadius` is the mixed Symbol (`figma.mixed`) while all
four per-corner radii are plain numbers. -/
def mixedCornerNode : SrcNode :=
  .mk [("cornerRadius", .sym 0), ("topLeftRadius", .num 1), ("topRightRadius", .num 2),
       ("bottomRightRadius", .num 3), ("bottomLeftRadius", .num 4)] noKids

/-- A node whose `visible` property is literally `false`, with content that
would otherwise be collected (an IMAGE fill and a child). -/
def invisibleNode : SrcNode :=
  .mk [("visible", .bool false),
       ("fills", .arr [.obj [("type", .str "IMAGE"), ("imageHash", .str "h1")]])]
      (.arr (.cons (.mk [("type", .str "VECTOR"), ("width", .num 10)] .undef) .nil))

/-- A node with two fills referencing the same image hash. -/
def dupFillNode : SrcNode :=
  .mk [("fills", .arr [.obj [("type", .str "IMAGE"), ("imageHash", .str "h1")],
                       .obj [("type", .str "IMAGE"), ("imageHash", .str "h1")]])]
      noKids

/-- A node with one child, for exercising the depth bound. -/
def deepDemoNode : SrcNode := .mk [] (.arr (.cons (.mk [] .undef) .nil))

/-- A composite node of the spec scenario: `width = 2000`, `height = 1000`. -/
def demoCompositeNode : SrcNode :=
  .mk [("width", .num 2000), ("height", .num 1000)] noKids

/-- The collected entry for `demoCompositeNode`. -/
def demoComposite : NodeEntry :=
  { node := demoCompositeNode, nodeId := "1:2", nodeName := "demo" }

/-- Twelve bytes beginning with the PNG magic number. -/
def demoPngBytes : List Nat :=
  [0x89, 0x50, 0x4E, 0x47, 0x0D, 0x0A, 0x1A, 0x0A, 0, 0, 0, 0]

/-- A stored selection whose node id is `"B"`. -/
def staleSelection : SelectionState :=
  { fileId := .str "f", nodeId := .str "B", pageId := .str "p", userId := .str "u",
    metadata := .obj [], designTree := .undef, images := some [], timestamp := 0 }

/-- A store holding `staleSelection`. -/
def staleStore : StoreState := { current := some staleSelection, disk := [] }

/-- A selection-push body with `nodeId` missing. -/
def missingNodeIdBody : List (String × JSVal) :=
  [("fileId", .str "f"), ("metadata", .obj []), ("pageId", .str "p")]

/-! ### Theorems -/

theorem safeNum_num_fallback (val : JSVal) (fb : ℚ) :
    safeNum val (.num fb) = .num (safeNumQ val fb) := by
  unfold safeNum safeNumQ
  cases safe val .undef <;> simp [JSVal.isUndef]

theorem safeStr_str_fallback (val : JSVal) (fb : String) :
    safeStr val (.str fb) = .str (safeStrS val fb) := by
  unfold safeStr safeStrS
  cases safe val .undef <;> simp [JSVal.isUndef]

theorem safeBool_bool_fallback (val : JSVal) (fb : Bool) :
    safeBool val (.bool fb) = .bool (safeBoolB val fb) := by
  unfold safeBool safeBoolB
  cases safe val .undef <;> simp [JSVal.isUndef]

theorem safeArr_list (val : JSVal) : safeArr val = .arr (safeArrL val) := by
  unfold safeArr safeArrL
  cases safe val .undef <;> simp

/-- C10: any byte array shorter than 12 bytes — whatever its content, JPEG
SOI marker and GIF header included — and any array of 12 or more bytes
matching none of the four recognized signatures, is reported as `"png"`. -/
theorem detectImageFormat_default_png (bytes : List Nat)
    (h : bytes.length < 12 ∨
         (¬(bytes.getD 0 0 = 0x89 ∧ bytes.getD 1 0 = 0x50 ∧
            bytes.getD 2 0 = 0x4E ∧ bytes.getD 3 0 = 0x47) ∧
          ¬(bytes.getD 0 0 = 0xFF ∧ bytes.getD 1 0 = 0xD8) ∧
          ¬(bytes.getD 0 0 = 0x47 ∧ bytes.getD 1 0 = 0x49 ∧ bytes.getD 2 0 = 0x46) ∧
          ¬(bytes.getD 8 0 = 0x57 ∧ bytes.getD 9 0 = 0x45 ∧
            bytes.getD 10 0 = 0x42 ∧ bytes.getD 11 0 = 0x50))) :
    detectImageFormat bytes = "png" := by
  unfold detectImageFormat
  rcases h with h | ⟨h1, h2, h3, h4⟩
  · rw [if_pos h]
  · by_cases hl : bytes.length < 12
    · rw [if_pos hl]
    · rw [if_neg hl, if_neg h1, if_neg h2, if_neg h3, if_neg h4]

theorem detectImageFormat_default_png_witness :
    ([0xFF, 0xD8] : List Nat).length < 12 ∧ detectImageFormat [0xFF, 0xD8] = "png" :=
  ⟨by decide, detectImageFormat_default_png [0xFF, 0xD8] (Or.inl (by decide))⟩

/-- C7 counterexample: a byte array that begins with the JPEG SOI marker
`0xFF 0xD8` but is shorter than 12 bytes is not reported as `"jpg"` (it is
reported as `"png"`), refuting the claim as universally stated. -/
theorem detectImageFormat_jpeg_prefix_counterexample :
    detectImageFormat [0xFF, 0xD8] = "png" ∧ detectImageFormat [0xFF, 0xD8] ≠ "jpg" := by
  constructor <;> decide

/-- C7 (amended): for byte arrays of at least 12 bytes the format is
determined solely by the leading bytes (the function takes no declared
format), by signature checks applied in source order — PNG magic, then JPEG
SOI, then GIF header, then the WEBP tag at offset 8 — first match winning;
shorter arrays uniformly yield `"png"` (see `detectImageFormat_default_png`). -/
theorem detectImageFormat_signatures (bytes : List Nat)
    (hlen : 12 ≤ bytes.length) :
    ((bytes.getD 0 0 = 0x89 ∧ bytes.getD 1 0 = 0x50 ∧
      bytes.getD 2 0 = 0x4E ∧ bytes.getD 3 0 = 0x47) →
      detectImageFormat bytes = "png") ∧
    (¬(bytes.getD 0 0 = 0x89 ∧ bytes.getD 1 0 = 0x50 ∧
       bytes.getD 2 0 = 0x4E ∧ bytes.getD 3 0 = 0x47) →
     (bytes.getD 0 0 = 0xFF ∧ bytes.getD 1 0 = 0xD8) →
      detectImageFormat bytes = "jpg") ∧
    (¬(bytes.getD 0 0 = 0x89 ∧ bytes.getD 1 0 = 0x50 ∧
       bytes.getD 2 0 = 0x4E ∧ bytes.getD 3 0 = 0x47) →
     ¬(bytes.getD 0 0 = 0xFF ∧ bytes.getD 1 0 = 0xD8) →
     (bytes.getD 0 0 = 0x47 ∧ bytes.getD 1 0 = 0x49 ∧ bytes.getD 2 0 = 0x46) →
      detectImageFormat bytes = "gif") ∧
    (¬(bytes.getD 0 0 = 0x89 ∧ bytes.getD 1 0 = 0x50 ∧
       bytes.getD 2 0 = 0x4E ∧ bytes.getD 3 0 = 0x47) →
     ¬(bytes.getD 0 0 = 0xFF ∧ bytes.getD 1 0 = 0xD8) →
     ¬(bytes.getD 0 0 = 0x47 ∧ bytes.getD 1 0 = 0x49 ∧ bytes.getD 2 0 = 0x46) →
     (bytes.getD 8 0 = 0x57 ∧ bytes.getD 9 0 = 0x45 ∧
      bytes.getD 10 0 = 0x42 ∧ bytes.getD 11 0 = 0x50) →
      detectImageFormat bytes = "webp") := by
  have hl : ¬ bytes.length < 12 := by omega
  unfold detectImageFormat
  refine ⟨fun hp => ?_, fun hnp hj => ?_, fun hnp hnj hg => ?_, fun hnp hnj hng hw => ?_⟩
  · rw [if_neg hl, if_pos hp]
  · rw [if_neg hl, if_neg hnp, if_pos hj]
  · rw [if_neg hl, if_neg hnp, if_neg hnj, if_pos hg]
  · rw [if_neg hl, if_neg hnp, if_neg hnj, if_neg hng, if_pos hw]

theorem detectImageFormat_signatures_witness :
    12 ≤ ([0xFF, 0xD8, 0, 0, 0, 0, 0, 0, 0, 0, 0, 0] : List Nat).length ∧
    detectImageFormat [0xFF, 0xD8, 0, 0, 0, 0, 0, 0, 0, 0, 0, 0] = "jpg" :=
  ⟨by decide,
   (detectImageFormat_signatures [0xFF, 0xD8, 0, 0, 0, 0, 0, 0, 0, 0, 0, 0]
      (by decide)).2.1 (by decide) (by decide)⟩

/-- C4: evaluation at the failing input.  On a node whose raw `cornerRadius`
is the mixed Symbol, the serializer sets neither the uniform `cornerRadius`
field nor any of the four per-corner fields — `safe()` coerces the Symbol to
`null`, so the per-corner branch of `code.js` line 359 never runs — although
all four per-corner radii are present as numbers on the source node. -/
theorem extract_mixed_cornerRadius_dropped :
    (extractDesignNode mixedCornerNode 0).data.cornerRadius = none ∧
    (extractDesignNode mixedCornerNode 0).data.topLeftRadius = none ∧
    (extractDesignNode mixedCornerNode 0).data.topRightRadius = none ∧
    (extractDesignNode mixedCornerNode 0).data.bottomRightRadius = none ∧
    (extractDesignNode mixedCornerNode 0).data.bottomLeftRadius = none := by
  refine ⟨?_, ?_, ?_, ?_, ?_⟩ <;> rfl

/-- C2: the value normalizers are total over every modelled value — being
Lean functions they terminate and never throw — and: (a) any Symbol (the
mixed sentinel included) is handled identically to `null` and `undefined`;
(b) each typed normalizer returns a value of its expected kind or the
caller-supplied fallback; (c) the sentinel never appears in the output
unless the caller itself supplied a Symbol as the fallback. -/
theorem normalizers_sentinel_safe (val fallback : JSVal) (i : Nat) :
    (safe (.sym i) fallback = safe .null fallback ∧
     safe .undef fallback = safe .null fallback ∧
     safeNum (.sym i) fallback = safeNum .null fallback ∧
     safeNum .undef fallback = safeNum .null fallback ∧
     safeStr (.sym i) fallback = safeStr .null fallback ∧
     safeStr .undef fallback = safeStr .null fallback ∧
     safeBool (.sym i) fallback = safeBool .null fallback ∧
     safeBool .undef fallback = safeBool .null fallback ∧
     safeArr (.sym i) = safeArr .null) ∧
    (safe val fallback = val ∨ safe val fallback = fallback ∨ safe val fallback = .null) ∧
    ((∃ q, safeNum val fallback = .num q) ∨ safeNum val fallback = fallback) ∧
    ((∃ s, safeStr val fallback = .str s) ∨ safeStr val fallback = fallback) ∧
    ((∃ b, safeBool val fallback = .bool b) ∨ safeBool val fallback = fallback) ∧
    (∃ xs, safeArr val = .arr xs) ∧
    ((safe val fallback).isSym = false ∨ fallback.isSym = true) ∧
    ((safeNum val fallback).isSym = false ∨ fallback.isSym = true) ∧
    ((safeStr val fallback).isSym = false ∨ fallback.isSym = true) ∧
    ((safeBool val fallback).isSym = false ∨ fallback.isSym = true) ∧
    (safeArr val).isSym = false := by
  cases val <;> cases fallback <;>
    simp [safe, safeNum, safeStr, safeBool, safeArr, JSVal.isSym, JSVal.isUndef]

/-- C6: a node whose `visible` property normalizes to `false` contributes
nothing: for every depth and accumulator state the collection walk returns
the accumulator unchanged — no asset of any category is added and no
descendant is scanned. -/
theorem collect_prunes_invisible (n : SrcNode) (depth : Nat) (acc : Collected)
    (h : safeBoolB (n.get "visible") true = false) :
    collectImageAssets n depth acc = acc := by
  match n with
  | .mk props children =>
    cases children with
    | undef => simp [collectImageAssets, h]
    | arr f => simp [collectImageAssets, h]

theorem collect_prunes_invisible_witness :
    safeBoolB (invisibleNode.get "visible") true = false ∧
    collectImageAssets invisibleNode 0 emptyCollected = emptyCollected :=
  ⟨by decide, collect_prunes_invisible invisibleNode 0 emptyCollected (by decide)⟩

/-- C1: an asset batch whose stamped node id does not strictly equal the
current selection's node id (or arriving when no selection is stored) is
rejected: `setImages` returns `false` and the whole store state — current
selection, its asset map, and the asset files on disk — is unchanged. -/
theorem setImages_stale_rejected (st : StoreState) (nodeId : JSVal)
    (assets : List ImageAsset)
    (h : ∀ s, st.current = some s → JSVal.beq s.nodeId nodeId = false) :
    SelectionStore.setImages st nodeId assets = (false, st) := by
  rcases hcur : st.current with _ | s
  · unfold SelectionStore.setImages
    rw [hcur]
  · unfold SelectionStore.setImages
    rw [hcur]
    simp [h s hcur]

theorem setImages_stale_rejected_witness :
    JSVal.beq staleSelection.nodeId (.str "A") = false ∧
    SelectionStore.setImages staleStore (.str "A") [] = (false, staleStore) :=
  ⟨by decide,
   setImages_stale_rejected staleStore (.str "A") []
     (by intro s hs
         simp only [staleStore] at hs
         injection hs with h2
         rw [← h2]
         decide)⟩

/-- C9: a selection push whose body lacks a truthy `fileId`, `nodeId` or
`metadata` is rejected synchronously with the 400 validation error whose
message names the required identity fields (each of the three field names
occurs in the message), and the store — the only state — is untouched: no
`set` occurs. -/
theorem postSelection_missing_field_rejected (body : List (String × JSVal))
    (st : StoreState) (now : Nat)
    (h : jsTruthy (getProp body "fileId") = false ∨
         jsTruthy (getProp body "nodeId") = false ∨
         jsTruthy (getProp body "metadata") = false) :
    postSelection body st now = (.badRequest requiredMsg (body.map Prod.fst), st) ∧
    (postSelection body st now).1.status = 400 ∧
    (postSelection body st now).2 = st ∧
    hasSubChars requiredMsg.data "fileId".data = true ∧
    hasSubChars requiredMsg.data "nodeId".data = true ∧
    hasSubChars requiredMsg.data "metadata".data = true := by
  have hmain : postSelection body st now =
      (.badRequest requiredMsg (body.map Prod.fst), st) := by
    unfold postSelection
    simp only []
    rw [if_pos h]
  exact ⟨hmain, by rw [hmain]; rfl, by rw [hmain], by decide, by decide, by decide⟩

theorem postSelection_missing_field_rejected_witness :
    jsTruthy (getProp missingNodeIdBody "nodeId") = false ∧
    postSelection missingNodeIdBody { current := none, disk := [] } 0 =
      (.badRequest requiredMsg (missingNodeIdBody.map Prod.fst),
       { current := none, disk := [] }) :=
  ⟨by decide,
   (postSelection_missing_field_rejected missingNodeIdBody
      { current := none, disk := [] } 0 (Or.inr (Or.inl (by decide)))).1⟩


/-- C8: the composite export scale is `COMPOSITE_MAX_PX / longest-dimension`
when the node's longest dimension exceeds the cap (`512`) and exactly `1`
otherwise; it never exceeds `1` (no upscaling).  At the spec scenario —
width `2000`, height `1000` — the scale is `0.256` applied uniformly and the
recorded asset dimensions are `512 × 256`. -/
theorem compositeScale_capped (w h : ℚ) (node : SrcNode)
    (hw : node.get "width" = .num w) (hh : node.get "height" = .num h) :
    COMPOSITE_MAX_PX = 512 ∧
    (max w h > COMPOSITE_MAX_PX →
      compositeExportScale node = COMPOSITE_MAX_PX / max w h) ∧
    (max w h ≤ COMPOSITE_MAX_PX → compositeExportScale node = 1) ∧
    compositeExportScale node ≤ 1 ∧
    compositeExportScale demoComposite.node = (0.256 : ℚ) ∧
    (compositeAssetRecord demoComposite demoPngBytes).width = 512 ∧
    (compositeAssetRecord demoComposite demoPngBytes).height = 256 := by
  have hs : compositeExportScale node =
      if max w h > COMPOSITE_MAX_PX then COMPOSITE_MAX_PX / max w h else 1 := by
    simp only [compositeExportScale]
    rw [hw, hh]
    simp [safeNumQ, safe]
  have hwv : safeNumQ (demoComposite.node.get "width") 1 = 2000 := by decide
  have hhv : safeNumQ (demoComposite.node.get "height") 1 = 1000 := by decide
  have hscale : compositeExportScale demoComposite.node = (0.256 : ℚ) := by
    simp only [compositeExportScale]
    rw [hwv, hhv]
    norm_num [COMPOSITE_MAX_PX]
  refine ⟨rfl, fun hgt => ?_, fun hle => ?_, ?_, hscale, ?_, ?_⟩
  · rw [hs, if_pos hgt]
  · rw [hs, if_neg (not_lt.mpr hle)]
  · rw [hs]
    split
    · rename_i hgt
      have hcap : (0 : ℚ) < COMPOSITE_MAX_PX := by norm_num [COMPOSITE_MAX_PX]
      have hpos : (0 : ℚ) < max w h := lt_trans hcap hgt
      rw [div_le_one hpos]
      linarith
    · exact le_refl 1
  · simp only [compositeAssetRecord]
    rw [hwv, hscale]
    norm_num [jsRound]
  · simp only [compositeAssetRecord]
    rw [hhv, hscale]
    norm_num [jsRound]

theorem compositeScale_capped_witness :
    max (2000 : ℚ) 1000 > COMPOSITE_MAX_PX ∧
    compositeExportScale demoCompositeNode = COMPOSITE_MAX_PX / max (2000 : ℚ) 1000 :=
  ⟨by norm_num [COMPOSITE_MAX_PX],
   (compositeScale_capped 2000 1000 demoCompositeNode rfl rfl).2.1
     (by norm_num [COMPOSITE_MAX_PX])⟩

mutual
theorem extract_height_le (n : SrcNode) (depth : Nat) :
    dHeight (extractDesignNode n depth) ≤ MAX_TREE_DEPTH - depth := by
  match n with
  | .mk props children =>
    cases children with
    | undef =>
      simp only [extractDesignNode, dHeight]
      split <;> simp [dChildrenHeight]
    | arr f =>
      have ih := extract_forest_height_le f (depth + 1)
      simp only [extractDesignNode, dHeight]
      by_cases hlt : depth < MAX_TREE_DEPTH
      · rw [if_pos hlt]
        simp only [dChildrenHeight]
        omega
      · rw [if_neg hlt]
        simp [dChildrenHeight]
theorem extract_forest_height_le (f : SrcForest) (depth : Nat) :
    dForestHeight (extractForest f depth) ≤ MAX_TREE_DEPTH - depth := by
  match f with
  | .nil => simp [extractForest, dForestHeight]
  | .cons c rest =>
    have h1 := extract_height_le c depth
    have h2 := extract_forest_height_le rest depth
    simp only [extractForest, dForestHeight]
    omega
end

theorem childrenOf_absent_of_height_zero (dn : DesignNode) (h : dHeight dn = 0) :
    dn.childrenOf = .absent := by
  cases dn with
  | mk d c =>
    cases c with
    | absent => rfl
    | present f => simp [dHeight, dChildrenHeight] at h

theorem extract_children_absent_of_ge (n : SrcNode) (depth : Nat)
    (hd : MAX_TREE_DEPTH ≤ depth) :
    (extractDesignNode n depth).childrenOf = .absent := by
  have hh := extract_height_le n depth
  exact childrenOf_absent_of_height_zero _ (by omega)

/-- C3: depth truncation of the serializer.  A node serialized at a depth at
or beyond `MAX_TREE_DEPTH` has no `children` field at all, and in general the
height of the serialized snapshot (its number of `children` levels) is
bounded by `MAX_TREE_DEPTH - depth` — descendants exist only up to the fixed
bound, silently, with no error path. -/
theorem extract_depth_bounded (n : SrcNode) (depth : Nat) :
    (MAX_TREE_DEPTH ≤ depth → (extractDesignNode n depth).childrenOf = .absent) ∧
    dHeight (extractDesignNode n depth) ≤ MAX_TREE_DEPTH - depth :=
  ⟨fun hd => extract_children_absent_of_ge n depth hd, extract_height_le n depth⟩

theorem extract_depth_bounded_witness :
    MAX_TREE_DEPTH ≤ 15 ∧ (extractDesignNode deepDemoNode 15).childrenOf = .absent :=
  ⟨by decide, (extract_depth_bounded deepDemoNode 15).1 (by decide)⟩

theorem lookup_isNone_not_in_keys {α : Type} (l : List (String × α)) (k : String)
    (h : (l.lookup k).isNone = true) : k ∉ l.map Prod.fst := by
  induction l with
  | nil => simp
  | cons p rest ih =>
    obtain ⟨k1, v1⟩ := p
    simp only [List.lookup] at h
    by_cases hk : (k == k1) = true
    · rw [hk] at h
      simp at h
    · rw [Bool.not_eq_true] at hk
      rw [hk] at h
      simp only [List.map, List.mem_cons, not_or]
      exact ⟨beq_eq_false_iff_ne.mp hk, ih h⟩

theorem keys_nodup_append {α : Type} (l : List (String × α)) (k : String) (v : α)
    (hnd : (l.map Prod.fst).Nodup) (hmem : k ∉ l.map Prod.fst) :
    ((l ++ [(k, v)]).map Prod.fst).Nodup := by
  rw [List.map_append, List.nodup_append]
  refine ⟨hnd, by simp, ?_⟩
  intro a ha hb
  simp only [List.map_cons, List.map_nil, List.mem_singleton] at hb
  subst hb
  exact hmem ha

theorem imageFillStep_keys_nodup (n : SrcNode) (acc : Collected) (f : JSVal)
    (h : (acc.imageHashes.map Prod.fst).Nodup) :
    ((imageFillStep n acc f).imageHashes.map Prod.fst).Nodup := by
  simp only [imageFillStep]
  split
  · split
    · rename_i hcond
      rw [Bool.and_eq_true] at hcond
      exact keys_nodup_append _ _ _ h (lookup_isNone_not_in_keys _ _ hcond.2)
    · exact h
  · exact h

theorem foldl_imageFillStep_keys_nodup (n : SrcNode) (fs : List JSVal) (acc : Collected)
    (h : (acc.imageHashes.map Prod.fst).Nodup) :
    (((fs.foldl (imageFillStep n) acc)).imageHashes.map Prod.fst).Nodup := by
  induction fs generalizing acc with
  | nil => simpa
  | cons f rest ih => exact ih _ (imageFillStep_keys_nodup n acc f h)

theorem vectorStep_imageHashes (n : SrcNode) (acc : Collected) :
    (vectorStep n acc).imageHashes = acc.imageHashes := by
  simp only [vectorStep]
  split <;> rfl

theorem compositeStep_imageHashes (n : SrcNode) (depth : Nat) (acc : Collected) :
    (compositeStep n depth acc).imageHashes = acc.imageHashes := by
  simp only [compositeStep]
  split
  · split <;> rfl
  · rfl

mutual
theorem collect_keys_nodup (n : SrcNode) (depth : Nat) (acc : Collected)
    (h : (acc.imageHashes.map Prod.fst).Nodup) :
    ((collectImageAssets n depth acc).imageHashes.map Prod.fst).Nodup := by
  match n with
  | .mk props children =>
    cases children with
    | undef =>
      simp only [collectImageAssets]
      split
      · exact h
      split
      · exact h
      split
      · exact h
      rw [compositeStep_imageHashes, vectorStep_imageHashes]
      exact foldl_imageFillStep_keys_nodup _ _ _ h
    | arr f =>
      simp only [collectImageAssets]
      split
      · exact h
      split
      · exact h
      split
      · exact h
      apply collectForest_keys_nodup
      rw [compositeStep_imageHashes, vectorStep_imageHashes]
      exact foldl_imageFillStep_keys_nodup _ _ _ h
theorem collectForest_keys_nodup (f : SrcForest) (depth : Nat) (acc : Collected)
    (h : (acc.imageHashes.map Prod.fst).Nodup) :
    ((collectForest f depth acc).imageHashes.map Prod.fst).Nodup := by
  match f with
  | .nil => simpa [collectForest]
  | .cons c rest =>
    simp only [collectForest]
    exact collectForest_keys_nodup rest depth _ (collect_keys_nodup c depth acc h)
end

/-- C5: deduplication by image reference.  For every walked node, depth and
accumulator whose image-hash keys are currently duplicate-free, the keys
remain duplicate-free after the walk: each non-empty image reference
contributes at most one image-fill asset, however many fills or nodes in the
subtree carry it.  And the contribution is not vacuous: walking the node with
two fills sharing the reference `"h1"` produces exactly the one-entry key
list `["h1"]` — exactly one image-fill asset for that reference. -/
theorem collect_dedups_image_hashes (n : SrcNode) (depth : Nat) (acc : Collected)
    (h : (acc.imageHashes.map Prod.fst).Nodup) :
    ((collectImageAssets n depth acc).imageHashes.map Prod.fst).Nodup ∧
    (collectImageAssets dupFillNode 0 emptyCollected).imageHashes.map Prod.fst = ["h1"] :=
  ⟨collect_keys_nodup n depth acc h, by rfl⟩

theorem collect_dedups_image_hashes_witness :
    ((emptyCollected.imageHashes.map Prod.fst).Nodup) ∧
    (((collectImageAssets dupFillNode 0 emptyCollected).imageHashes.map Prod.fst).Nodup) ∧
    (collectImageAssets dupFillNode 0 emptyCollected).imageHashes.map Prod.fst = ["h1"] :=
  ⟨by simp [emptyCollected],
   (collect_dedups_image_hashes dupFillNode 0 emptyCollected (by simp [emptyCollected])).1,
   (collect_dedups_image_hashes dupFillNode 0 emptyCollected (by simp [emptyCollected])).2⟩
